import Mathlib

/-!
Shallow embedding of the rclcpp client-layer sources:
`include/rclcpp/loaned_message.hpp` (which carries both the
`LoanedMessage` class and an early `parameter_client.hpp` with
`AsyncParametersClient` / `SyncParametersClient`), `include/rclcpp/qos_event.hpp`
and its implementation file (`QOSEventHandlerBase`).

Conventions: raw pointers and smart pointers become `Option` (with `none` for
null/unset); calls into the rcl layer become parameters of the embedding that
supply the collaborator's answer (memory returned, take-event outcome); side
effects (logging, allocation, deallocation, callback invocation) become
explicit event traces so that statements such as "exactly one release path
runs" are about the trace of emitted events.
-/

namespace Rclcpp

/-- Model of `rclcpp::PublisherBase` as far as `LoanedMessage` observes it:
the `can_loan_messages()` capability query. -/
structure PublisherBase where
  can_loan_messages : Bool
deriving DecidableEq, Repr

/-- Observable actions performed by the `LoanedMessage` constructor and
destructor.  Release calls record the pointer they are handed
(`none` = null), mirroring `rcl_deallocate_loaned_message(handle, ptr)` and
`message_allocator_->deallocate(ptr, 1)`. -/
inductive LMEvent where
  /-- `RCLCPP_WARN`: middleware cannot loan, local allocator will be used. -/
  | warnNoLoan : LMEvent
  /-- a call to `rcl_allocate_loaned_message`. -/
  | poolAllocCall : LMEvent
  /-- a call to `message_allocator_->allocate(1)`. -/
  | fallbackAllocCall : LMEvent
  /-- a call to `rcl_deallocate_loaned_message(handle, ptr)`. -/
  | poolReturnCall (ptr : Option Nat) : LMEvent
  /-- a call to `message_allocator_->deallocate(ptr, 1)`. -/
  | fallbackDeallocCall (ptr : Option Nat) : LMEvent
  /-- `RCLCPP_ERROR`: cannot deallocate, publisher instance is NULL. -/
  | errorNullPublisher : LMEvent
  /-- `RCLCPP_ERROR`: `rcl_deallocate_loaned_message` failed. -/
  | errorDeallocFailed : LMEvent
deriving DecidableEq, Repr

/-- Errors thrown by the `LoanedMessage` constructor
(`std::runtime_error` with the two distinct messages). -/
inductive CtorError where
  /-- thrown as "publisher pointer is null". -/
  | invalidOwner : CtorError
  /-- thrown as "unable to allocate memory for loaned message". -/
  | allocationFailed : CtorError
deriving DecidableEq, Repr

/-- State of a `LoanedMessage<MessageT>` object: `pub` models the raw pointer
member `pub_` (`none` = null), `message` models the `unique_ptr` member
`message_` as the address of the held buffer (`none` = null).  The
`const shared_ptr` allocator member carries no state the claims observe and is
left implicit. -/
structure LoanedMessage where
  pub : Option PublisherBase
  message : Option Nat
deriving DecidableEq, Repr

/-- Shallow embedding of the `LoanedMessage` constructor (loaned_message.hpp
lines 67-92).  `poolMemory` and `fallbackMemory` supply what
`rcl_allocate_loaned_message` resp. `message_allocator_->allocate(1)` would
return on this call (`none` = null).  Throwing becomes `Except.error`; on
success the constructed object is returned together with the trace of
allocation-path events. -/
def loanedMessageCtor (pub : Option PublisherBase)
    (poolMemory fallbackMemory : Option Nat) :
    Except CtorError (LoanedMessage × List LMEvent) :=
  match pub with
  | none => Except.error CtorError.invalidOwner
  | some p =>
    let step : Option Nat × List LMEvent :=
      if p.can_loan_messages then
        (poolMemory, [LMEvent.poolAllocCall])
      else
        (fallbackMemory, [LMEvent.warnNoLoan, LMEvent.fallbackAllocCall])
    match step.1 with
    | none => Except.error CtorError.allocationFailed
    | some m => Except.ok ({ pub := some p, message := some m }, step.2)

/-- Shallow embedding of the `LoanedMessage` move constructor
(loaned_message.hpp lines 95-99), returning (destination, moved-from source).
`std::move` on the raw pointer `pub_` copies it (the source keeps it); moving
the `unique_ptr` `message_` transfers the buffer and nulls the source; the
`const shared_ptr` allocator is copied. -/
def loanedMessageMove (other : LoanedMessage) : LoanedMessage × LoanedMessage :=
  ({ pub := other.pub, message := other.message },
   { pub := other.pub, message := none })

/-- Shallow embedding of the `LoanedMessage` destructor (loaned_message.hpp
lines 113-139) as the trace of events it emits.  `deallocOk` supplies whether
`rcl_deallocate_loaned_message` returns `RCL_RET_OK` on this call.  Note the
destructor only guards on `pub_` being null; `message_.release()` is passed to
the release call even when it is null. -/
def loanedMessageDtor (lm : LoanedMessage) (deallocOk : Bool) : List LMEvent :=
  match lm.pub with
  | none => [LMEvent.errorNullPublisher]
  | some p =>
    if p.can_loan_messages then
      if deallocOk then [LMEvent.poolReturnCall lm.message]
      else [LMEvent.poolReturnCall lm.message, LMEvent.errorDeallocFailed]
    else
      [LMEvent.fallbackDeallocCall lm.message]

/-- Shallow embedding of `LoanedMessage::is_valid` (lines 149-152):
`message_ != nullptr`. -/
def LoanedMessage.is_valid (lm : LoanedMessage) : Bool :=
  lm.message.isSome

/-- Shallow embedding of `LoanedMessage::get` (lines 162-165): `return
*message_;` with no validity check.  The result is the dereferenced buffer;
`none` models the dereference of a null `message_`, which C++ leaves
undefined. -/
def LoanedMessage.get (lm : LoanedMessage) : Option Nat :=
  lm.message

/-- Predicate selecting the two release calls among `LMEvent`s. -/
def LMEvent.isRelease : LMEvent → Bool
  | LMEvent.poolReturnCall _ => true
  | LMEvent.fallbackDeallocCall _ => true
  | _ => false

/-- Release calls contained in an event trace, in order. -/
def releaseList (es : List LMEvent) : List LMEvent :=
  es.filter LMEvent.isRelease

/-- Model of `AsyncParametersClient` state (parameter_client.hpp lines
393-402): each `Client<...>::SharedPtr` member is modelled by the service name
the client was created on (`none` = the shared pointer was never assigned and
is null). -/
structure AsyncParametersClient where
  get_parameters_client : Option String
  get_parameter_types_client : Option String
  set_parameters_client : Option String
  set_parameters_atomically_client : Option String
  list_parameters_client : Option String
  describe_parameters_client : Option String
  remote_node_name : String
deriving DecidableEq, Repr

/-- Shallow embedding of the `AsyncParametersClient` constructor
(parameter_client.hpp lines 219-238).  `nodeName` is `node_->get_name()`.
The constructor assigns the get / get-types / set / list / describe clients;
no statement of the constructor assigns `set_parameters_atomically_client_`,
so that member keeps its default (null) value. -/
def mkAsyncParametersClient (nodeName remoteNodeName : String) :
    AsyncParametersClient :=
  let rn : String := if remoteNodeName ≠ "" then remoteNodeName else nodeName
  { get_parameters_client := some (rn ++ "__get_parameters")
    get_parameter_types_client := some (rn ++ "__get_parameter_types")
    set_parameters_client := some (rn ++ "__set_parameters")
    set_parameters_atomically_client := none
    list_parameters_client := some (rn ++ "__list_parameters")
    describe_parameters_client := some (rn ++ "__describe_parameters")
    remote_node_name := rn }

/-- The five asynchronous call shapes exposed by `AsyncParametersClient`. -/
inductive CallShape where
  | getParams : CallShape
  | getParamTypes : CallShape
  | setParams : CallShape
  | setParamsAtomically : CallShape
  | listParams : CallShape
deriving DecidableEq, Repr

/-- The client member through which each call shape issues
`async_send_request` (parameter_client.hpp lines 252, 289, 322, 351, 379). -/
def clientUsed (c : AsyncParametersClient) : CallShape → Option String
  | CallShape.getParams => c.get_parameters_client
  | CallShape.getParamTypes => c.get_parameter_types_client
  | CallShape.setParams => c.set_parameters_client
  | CallShape.setParamsAtomically => c.set_parameters_atomically_client
  | CallShape.listParams => c.list_parameters_client

/-- Address-level model of the index computation in the `get_parameters`
completion handler (parameter_client.hpp line 261): `auto i = &pvalue -
&pvalues[0]`.  `pvalue` is the transform lambda's by-value parameter, so
`copyAddr` is the address of that local copy; `base` is the address of
`pvalues[0]` and `stride` the size in bytes of one `ParameterValue`.  C++
pointer subtraction divides the raw address difference by the element size. -/
def getParametersComputedIndex (copyAddr base stride : Int) : Int :=
  (copyAddr - base) / stride

/-- Bounds-aware read of `names[i]` for an `Int` index: `some` the element
when `i` is in range, `none` when the read is out of bounds (which C++ leaves
undefined for a `std::vector` subscript). -/
def lookupName (names : List String) (i : Int) : Option String :=
  if h : 0 ≤ i ∧ i.toNat < names.length then
    some (names.get ⟨i.toNat, h.2⟩)
  else
    none

/-- Shallow embedding of the `std::transform` body in the `get_parameters`
completion handler (parameter_client.hpp lines 259-266): each returned value
`v` is paired with `names[i]` where `i` is computed from the address of the
lambda's by-value parameter copy.  The memory layout is supplied by
`copyAddr` (address of the parameter copy, one cell reused per invocation),
`base` (address of `pvalues[0]`) and `stride` (element size). -/
def getParametersHandlerResult (names : List String) (pvalues : List Nat)
    (copyAddr base stride : Int) : List (Option String × Nat) :=
  pvalues.map (fun v =>
    (lookupName names (getParametersComputedIndex copyAddr base stride), v))

/-- Address of element `k` of an array starting at `base` with element size
`stride`, as C++ lays it out. -/
def elementAddr (base stride : Int) (k : Nat) : Int :=
  base + k * stride

/-- Capture modes of a C++ lambda capture list. -/
inductive CaptureMode where
  | byReference : CaptureMode
  | byValue : CaptureMode
deriving DecidableEq, Repr

/-- One entry of a lambda capture list: the captured variable, its capture
mode, and whether the referent is a local (stack) variable or parameter of
the enclosing function. -/
structure LambdaCapture where
  varName : String
  mode : CaptureMode
  referentIsFunctionLocal : Bool
deriving DecidableEq, Repr

/-- Capture list of the continuation that `get_parameters` registers with
`async_send_request` (parameter_client.hpp line 254):
`[&names, &promise_result, &future_result, &callback]`, all of which are
parameters or locals of `get_parameters` itself. -/
def getParametersContinuationCaptures : List LambdaCapture :=
  [{ varName := "names", mode := CaptureMode.byReference,
     referentIsFunctionLocal := true },
   { varName := "promise_result", mode := CaptureMode.byReference,
     referentIsFunctionLocal := true },
   { varName := "future_result", mode := CaptureMode.byReference,
     referentIsFunctionLocal := true },
   { varName := "callback", mode := CaptureMode.byReference,
     referentIsFunctionLocal := true }]

/-- Capture list of the continuation that `set_parameters` registers with
`async_send_request` (parameter_client.hpp line 324):
`[&promise_result, &future_result, &callback]`, all locals or parameters of
`set_parameters`. -/
def setParametersContinuationCaptures : List LambdaCapture :=
  [{ varName := "promise_result", mode := CaptureMode.byReference,
     referentIsFunctionLocal := true },
   { varName := "future_result", mode := CaptureMode.byReference,
     referentIsFunctionLocal := true },
   { varName := "callback", mode := CaptureMode.byReference,
     referentIsFunctionLocal := true }]

/-- Whether a capture still refers to a live object once the registering call
has returned, per C++ lifetime rules: a by-value capture owns its copy; a
by-reference capture of a function-local dangles, because locals and
parameters are destroyed when the function returns and capturing by reference
does not extend their lifetime. -/
def aliveAfterCallReturns (c : LambdaCapture) : Bool :=
  match c.mode with
  | CaptureMode.byValue => true
  | CaptureMode.byReference => !c.referentIsFunctionLocal

/-- Model of `QOSEventHandlerBase` state (qos_event.hpp lines 71-74):
`event_handle` is the identity (address) of the member `event_handle_`,
`wait_set_event_index` the member `wait_set_event_index_`. -/
structure QOSEventHandlerBase where
  event_handle : Nat
  wait_set_event_index : Nat
deriving DecidableEq, Repr

/-- Model of `rcl_wait_set_t` as far as `is_ready` observes it: the `events`
array of `rcl_event_t *` slots, each slot holding the address of a registered
handle. -/
structure RclWaitSet where
  events : List Nat
deriving DecidableEq, Repr

/-- Shallow embedding of `QOSEventHandlerBase::is_ready` (implementation file
lines 38-42): `wait_set->events[wait_set_event_index_] == &event_handle_`.
The one slot read is the one at this instance's own registered index. -/
def QOSEventHandlerBase.is_ready (h : QOSEventHandlerBase)
    (waitSet : RclWaitSet) : Bool :=
  waitSet.events.get? h.wait_set_event_index == some h.event_handle

/-- Shallow embedding of `QOSEventHandlerBase::get_number_of_ready_events`
(implementation file lines 31-35): `return 1;`, reading no state at all. -/
def QOSEventHandlerBase.get_number_of_ready_events
    (_h : QOSEventHandlerBase) : Nat :=
  1

/-- Observable actions performed by `QOSEventHandler::execute`. -/
inductive ExecEvent (Info : Type) where
  /-- a call to `rcl_take_event(&event_handle_, &callback_info)`. -/
  | takeCall : ExecEvent Info
  /-- `RCUTILS_LOG_ERROR_NAMED`: could not take event info (with the failing
  rcl return code). -/
  | logTakeError (code : Nat) : ExecEvent Info
  /-- the invocation `event_callback_(callback_info)`. -/
  | callbackCall (info : Info) : ExecEvent Info
deriving DecidableEq, Repr

/-- Shallow embedding of `QOSEventHandler::execute` (qos_event.hpp lines
96-110) as the trace of events it emits.  `takeResult` supplies the outcome
of `rcl_take_event`: `Except.ok info` when it returns `RCL_RET_OK` having
drained one occurrence into `info`, `Except.error code` otherwise.  On
failure the error is logged and the function returns (no callback, no retry,
no exception); on success the stored callback runs once with the drained
record. -/
def QOSEventHandler.execute {Info : Type} (takeResult : Except Nat Info) :
    List (ExecEvent Info) :=
  match takeResult with
  | Except.error code => [ExecEvent.takeCall, ExecEvent.logTakeError code]
  | Except.ok info => [ExecEvent.takeCall, ExecEvent.callbackCall info]

/-- Number of `rcl_take_event` calls in an execute trace. -/
def takeCount {Info : Type} (es : List (ExecEvent Info)) : Nat :=
  (es.filter (fun e =>
    match e with
    | ExecEvent.takeCall => true
    | _ => false)).length

/-- Number of callback invocations in an execute trace. -/
def callbackCount {Info : Type} (es : List (ExecEvent Info)) : Nat :=
  (es.filter (fun e =>
    match e with
    | ExecEvent.callbackCall _ => true
    | _ => false)).length

/-!
Theorems settling the claims.
-/

/-- C1: the claim says the i-th result of a `get_parameters` call pairs the
i-th requested name with the i-th returned value.  The handler computes the
index as `&pvalue - &pvalues[0]` where `pvalue` is the transform lambda's
by-value parameter, so the subtraction involves the address of a local copy
that is not an element of `pvalues`: at the concrete layout where the copy
lives at address 488 and `pvalues[0]` at address 1000 with element size 8,
the computed index is -64, and for the request `["a"]` with response `[1]`
the name read `names[-64]` is out of bounds (`none`), not the positional
pairing `[(some "a", 1)]` the claim requires. -/
theorem get_parameters_pairing_address_bug :
    getParametersComputedIndex 488 1000 8 = -64
    ∧ getParametersHandlerResult ["a"] [1] 488 1000 8 = [(none, 1)]
    ∧ getParametersHandlerResult ["a"] [1] 488 1000 8 ≠ [(some "a", 1)] := by
  decide

/-- Supporting fact: the idiom the handler attempts is only index recovery
when the subtracted pointer is the address of an actual element: for the
address of element `k` the computed index is `k`.  The handler's by-value
parameter defeats this, since the copy is a distinct object. -/
theorem computed_index_of_element_addr (base stride : Int) (k : Nat)
    (hs : stride ≠ 0) :
    getParametersComputedIndex (elementAddr base stride k) base stride = k := by
  simp [getParametersComputedIndex, elementAddr]
  exact Int.mul_ediv_cancel _ hs

/-- C2: the claim says each of the five async call shapes sends through a
client member the constructor assigned, in particular that
`set_parameters_atomically` operates on an assigned client.  The constructor
assigns the get / get-types / set / list (and describe) clients but no
statement of it assigns `set_parameters_atomically_client_`, so on a freshly
constructed client the member used by `set_parameters_atomically` is still
null while the other four call shapes use assigned clients. -/
theorem set_parameters_atomically_client_never_assigned :
    clientUsed (mkAsyncParametersClient "node_name" "")
        CallShape.setParamsAtomically = none
    ∧ (clientUsed (mkAsyncParametersClient "node_name" "")
        CallShape.getParams).isSome = true
    ∧ (clientUsed (mkAsyncParametersClient "node_name" "")
        CallShape.getParamTypes).isSome = true
    ∧ (clientUsed (mkAsyncParametersClient "node_name" "")
        CallShape.setParams).isSome = true
    ∧ (clientUsed (mkAsyncParametersClient "node_name" "")
        CallShape.listParams).isSome = true := by
  decide

/-- C3: the claim says the state used by the completion continuation (the
promise, the requested names, the shared future handle and the optional user
callback) stays alive from the call's return until the handler has run.  Both
`get_parameters` and `set_parameters` capture every one of these by reference,
and every referent is a parameter or local of the registering call, so none of
the captures refers to a live object once the call has returned. -/
theorem continuation_state_dangles :
    getParametersContinuationCaptures.map aliveAfterCallReturns
        = [false, false, false, false]
    ∧ setParametersContinuationCaptures.map aliveAfterCallReturns
        = [false, false, false] := by
  decide

/-- C4: when construction succeeds, the acquisition path is chosen by the
owner's `can_loan_messages()` capability (pool allocation when reported,
fallback allocation preceded by the advisory warning otherwise), and the
destructor's release trace is exactly one release call through that same
path: a pool return when the pool allocated, a fallback deallocation when the
fallback allocator did, never the other and never both. -/
theorem acquire_release_same_path (p : PublisherBase)
    (poolMem fbMem : Option Nat) (deallocOk : Bool)
    (lm : LoanedMessage) (es : List LMEvent)
    (h : loanedMessageCtor (some p) poolMem fbMem = Except.ok (lm, es)) :
    es = (if p.can_loan_messages then [LMEvent.poolAllocCall]
          else [LMEvent.warnNoLoan, LMEvent.fallbackAllocCall])
    ∧ releaseList (loanedMessageDtor lm deallocOk) =
        (if p.can_loan_messages then [LMEvent.poolReturnCall lm.message]
         else [LMEvent.fallbackDeallocCall lm.message]) := by
  obtain ⟨canLoan⟩ := p
  cases canLoan <;> cases poolMem <;> cases fbMem <;> cases deallocOk <;>
    simp [loanedMessageCtor] at h <;>
    obtain ⟨rfl, rfl⟩ := h <;>
    simp [loanedMessageDtor, releaseList, LMEvent.isRelease]

/-- C4 witness: a loaning publisher with pool memory at address 7 acquires
through the pool, and destruction releases that same buffer through the pool
path. -/
theorem acquire_release_same_path_witness :
    releaseList (loanedMessageDtor
        { pub := some { can_loan_messages := true }, message := some 7 } true)
      = [LMEvent.poolReturnCall (some 7)] := by
  have h := (acquire_release_same_path { can_loan_messages := true }
    (some 7) none true
    { pub := some { can_loan_messages := true }, message := some 7 }
    [LMEvent.poolAllocCall] rfl).2
  simpa using h

/-- C5: the claim says moving leaves the source invalid and the destination
valid with the original contents (both of which hold), and that destroying
the moved-from source performs no release action.  The destructor guards only
on `pub_` being null, and `std::move` of the raw pointer `pub_` does not null
the source, so destroying the moved-from source still performs a release
call — here a pool return handed the null pointer released from the empty
`unique_ptr`. -/
theorem moved_from_source_dtor_still_releases :
    (loanedMessageMove
        { pub := some { can_loan_messages := true },
          message := some 7 }).2.is_valid = false
    ∧ (loanedMessageMove
        { pub := some { can_loan_messages := true },
          message := some 7 }).1.is_valid = true
    ∧ (loanedMessageMove
        { pub := some { can_loan_messages := true },
          message := some 7 }).1.get = some 7
    ∧ releaseList (loanedMessageDtor
        (loanedMessageMove
          { pub := some { can_loan_messages := true },
            message := some 7 }).2 true)
      = [LMEvent.poolReturnCall none] := by
  decide

/-- C6: construction fails with the invalid-owner error exactly when the
passed publisher is null, fails with the allocation error exactly when the
path chosen by the capability yields no memory, and otherwise succeeds with
`is_valid()` true; failure is a thrown error, so no object holding a buffer
comes into existence. -/
theorem ctor_failure_spec (pub : Option PublisherBase)
    (poolMem fbMem : Option Nat) :
    (loanedMessageCtor pub poolMem fbMem
        = Except.error CtorError.invalidOwner ↔ pub = none)
    ∧ (loanedMessageCtor pub poolMem fbMem
        = Except.error CtorError.allocationFailed ↔
        ∃ p, pub = some p
          ∧ (if p.can_loan_messages then poolMem else fbMem) = none)
    ∧ (∀ lm es, loanedMessageCtor pub poolMem fbMem = Except.ok (lm, es) →
        lm.is_valid = true) := by
  cases pub with
  | none => simp [loanedMessageCtor]
  | some p =>
    obtain ⟨canLoan⟩ := p
    cases canLoan <;> cases poolMem <;> cases fbMem <;>
      simp [loanedMessageCtor, LoanedMessage.is_valid]

/-- C6 witness: a null publisher is rejected with the invalid-owner error
even when both memory sources could supply memory. -/
theorem ctor_failure_spec_witness :
    loanedMessageCtor none (some 1) (some 1)
      = Except.error CtorError.invalidOwner :=
  (ctor_failure_spec none (some 1) (some 1)).1.mpr rfl

/-- C7: `is_ready` returns true iff the wait set's slot at this instance's
own registered index holds this instance's own handle identity; its value
depends on no slot other than the registered one; and it cannot return true
on account of a different instance's handle sitting in that slot. -/
theorem is_ready_spec (h : QOSEventHandlerBase) (ws ws2 : RclWaitSet) :
    (h.is_ready ws = true ↔
      ws.events.get? h.wait_set_event_index = some h.event_handle)
    ∧ (ws.events.get? h.wait_set_event_index
          = ws2.events.get? h.wait_set_event_index →
        h.is_ready ws = h.is_ready ws2)
    ∧ (∀ other : QOSEventHandlerBase,
        other.event_handle ≠ h.event_handle →
        h.is_ready ws = true →
        ws.events.get? h.wait_set_event_index ≠ some other.event_handle) := by
  refine ⟨?_, ?_, ?_⟩
  · simp [QOSEventHandlerBase.is_ready]
  · intro heq
    simp only [QOSEventHandlerBase.is_ready]
    rw [heq]
  · intro other hne hr hcontra
    have h1 : ws.events.get? h.wait_set_event_index = some h.event_handle := by
      simpa [QOSEventHandlerBase.is_ready] using hr
    rw [h1] at hcontra
    exact hne (Option.some.inj hcontra).symm

/-- C7 witness: a handler whose handle 5 is registered at index 0 reports the
same readiness on two wait sets agreeing at slot 0. -/
theorem is_ready_spec_witness :
    QOSEventHandlerBase.is_ready
        { event_handle := 5, wait_set_event_index := 0 } { events := [5] }
      = QOSEventHandlerBase.is_ready
        { event_handle := 5, wait_set_event_index := 0 } { events := [5, 9] } :=
  (is_ready_spec { event_handle := 5, wait_set_event_index := 0 }
    { events := [5] } { events := [5, 9] }).2.1 rfl

/-- C8: `execute` performs exactly one drain attempt; on a successful drain
the stored callback runs exactly once, with the drained record, and on a
failed drain the failure is logged, the callback does not run, no further
drain is attempted, and the function still returns a trace (no exception). -/
theorem execute_spec {Info : Type} (takeResult : Except Nat Info) :
    takeCount (QOSEventHandler.execute takeResult) = 1
    ∧ callbackCount (QOSEventHandler.execute takeResult)
        = (match takeResult with
           | Except.ok _ => 1
           | Except.error _ => 0)
    ∧ (∀ info, takeResult = Except.ok info →
        QOSEventHandler.execute takeResult
          = [ExecEvent.takeCall, ExecEvent.callbackCall info])
    ∧ (∀ code, takeResult = Except.error code →
        QOSEventHandler.execute takeResult
          = [ExecEvent.takeCall, ExecEvent.logTakeError code]) := by
  cases takeResult <;>
    simp [QOSEventHandler.execute, takeCount, callbackCount]

/-- C8 witness: a drain that succeeds with record 3 yields one take call and
one callback invocation carrying 3. -/
theorem execute_spec_witness :
    QOSEventHandler.execute (Except.ok (3 : Nat))
      = [ExecEvent.takeCall, ExecEvent.callbackCall 3] :=
  (execute_spec (Except.ok (3 : Nat))).2.2.1 3 rfl

/-- C9: `get_number_of_ready_events` returns the constant 1 for every handler
state and regardless of how many occurrences are queued in the native handle
(the function reads nothing, so the queued count cannot influence it). -/
theorem get_number_of_ready_events_constant :
    ∀ (h : QOSEventHandlerBase) (_queuedOccurrences : Nat),
      h.get_number_of_ready_events = 1 :=
  fun _ _ => rfl

/-- C10: `get()` dereferences the held buffer pointer with no validity check:
its result is defined exactly when `is_valid()` holds, and on a moved-from
(invalid) instance the dereference is the undefined null dereference —
nothing in the interface guards it. -/
theorem get_requires_validity (lm : LoanedMessage) :
    (lm.get.isSome = lm.is_valid) ∧ (loanedMessageMove lm).2.get = none :=
  ⟨rfl, rfl⟩

end Rclcpp
